import Mathlib

/-!
Shallow embedding of the core of `appoptics-api-python`
(package `appoptics_metrics`): the aggregator (`aggregator.py`),
the retry/backoff driver and pagination walker (`__init__.py`),
and the 4xx error-payload flattening (`exceptions.py`).

Numeric measurement values are modelled as `Rat` (Python numbers,
exact arithmetic); epoch times and HTTP status codes as `Nat`;
Python dicts keyed by strings as association lists (insertion
order preserved, as in Python 3.7+) or as `String → Option _`
maps where only lookup matters.
-/

namespace AppOptics

/-! ### Aggregator (`appoptics_metrics/aggregator.py`) -/

/-- One `{count, sum, min, max}` summary bucket entry
(`Aggregator.add` / `Aggregator.add_tagged` value shape). -/
structure Summary where
  count : Nat
  sum : Rat
  min : Rat
  max : Rat
deriving DecidableEq, Repr

/-- The branch of `Aggregator.add` that initialises or updates one
bucket entry: absent key gets `{count:1, sum:v, min:v, max:v}`;
a present entry gets `sum += v; count += 1` and conditional
`min`/`max` updates (`if value < m['min']`, `if value > m['max']`). -/
def addValue (prev : Option Summary) (v : Rat) : Summary :=
  match prev with
  | none => ⟨1, v, v, v⟩
  | some m =>
    ⟨m.count + 1, m.sum + v,
     if v < m.min then v else m.min,
     if v > m.max then v else m.max⟩

/-- A bucket (`self.measurements` / `self.tagged_measurements`):
a Python dict `name -> summary`, modelled by its lookup function. -/
abbrev Bucket := String → Option Summary

/-- The empty dict `{}`. -/
def Bucket.empty : Bucket := fun _ => none

/-- Aggregator state: the fields of `Aggregator.__init__` that the
mutation operations touch.  `period` and `measure_time` are
`Option Nat` (`None` or an epoch integer / seconds count). -/
structure AggState where
  measurements : Bucket
  tagged_measurements : Bucket
  period : Option Nat
  measure_time : Option Nat

/-- A fresh aggregator (`Aggregator(connection)` with no kwargs):
both buckets empty, no period, no explicit time. -/
def AggState.fresh : AggState :=
  ⟨Bucket.empty, Bucket.empty, none, none⟩

/-- `Aggregator.add(name, value)`: update `self.measurements[name]`. -/
def AggState.add (st : AggState) (name : String) (v : Rat) : AggState :=
  { st with measurements :=
      fun n => if n = name then some (addValue (st.measurements name) v)
               else st.measurements n }

/-- `Aggregator.add_tagged(name, value)`: update
`self.tagged_measurements[name]`. -/
def AggState.add_tagged (st : AggState) (name : String) (v : Rat) : AggState :=
  { st with tagged_measurements :=
      fun n => if n = name then some (addValue (st.tagged_measurements n) v)
               else st.tagged_measurements n }

/-- Python truthiness of an optional non-negative integer
(`if self.period:` / `if self.measure_time:`): `None` and `0` are
falsy. -/
def truthy (o : Option Nat) : Bool :=
  o.getD 0 != 0

/-- `Aggregator.floor_measure_time`, with the wall clock
(`time.time()`) passed in as `now`.  If `self.period` is truthy,
floor the truthy `self.measure_time` (else `now`) to the period;
elif `self.measure_time` is truthy return it unfloored; else the
Python function falls through and returns `None`. -/
def floor_measure_time (now : Nat) (st : AggState) : Option Nat :=
  if truthy st.period then
    let p := st.period.getD 0
    let mt := if truthy st.measure_time then st.measure_time.getD 0 else now
    some (mt - mt % p)
  else if truthy st.measure_time then
    st.measure_time
  else
    none

/-- The `time` field emitted by `Aggregator.to_payload` /
`to_md_payload`: `mt = self.floor_measure_time(); if mt:
result['time'] = mt` — a falsy (absent or zero) floored time emits
no field. -/
def payload_time (now : Nat) (st : AggState) : Option Nat :=
  let mt := floor_measure_time now st
  if truthy mt then mt else none

/-! ### Error payload flattening (`appoptics_metrics/exceptions.py`) -/

/-- A JSON-decoded Python value as `ClientError.error_payload` sees
it: string, integer (an unexpected scalar type), list, dict, or
`None`. -/
inductive EVal where
  | s (v : String)
  | n (v : Int)
  | l (vs : List EVal)
  | d (es : List (String × EVal))
  | pynone

/-- A Python exception escaping the flattening code. -/
inductive PyErr where
  | keyError
  | typeError
deriving DecidableEq, Repr

mutual

/-- Python `repr` of a value, as used by `str` on containers. -/
def pyRepr : EVal → String
  | .s v => "\x27" ++ v ++ "\x27"
  | .n v => toString v
  | .l vs => "[" ++ String.intercalate ", " (pyReprList vs) ++ "]"
  | .d es => "\x7b" ++ String.intercalate ", " (pyReprEntries es) ++ "\x7d"
  | .pynone => "None"

/-- `repr` of each element of a list. -/
def pyReprList : List EVal → List String
  | [] => []
  | v :: vs => pyRepr v :: pyReprList vs

/-- `repr` of each `key: value` entry of a dict. -/
def pyReprEntries : List (String × EVal) → List String
  | [] => []
  | (k, v) :: es => ("\x27" ++ k ++ "\x27: " ++ pyRepr v) :: pyReprEntries es

end

/-- Python `str()` / `"%s"` formatting of a value. -/
def pyStr : EVal → String
  | .s v => v
  | x => pyRepr x

/-- Python `sep.join(x)`: joins a string character by character, a
list only if every element is a `str` (else `TypeError`), a dict by
its keys; a number or `None` is not iterable (`TypeError`). -/
def pyJoin (sep : String) : EVal → Except PyErr String
  | .s v => .ok (String.intercalate sep (v.toList.map String.singleton))
  | .l vs => do
    let strs ← vs.mapM (fun e =>
      match e with
      | .s v => Except.ok v
      | _ => Except.error PyErr.typeError)
    .ok (String.intercalate sep strs)
  | .d es => .ok (String.intercalate sep (es.map Prod.fst))
  | .n _ => .error .typeError
  | .pynone => .error .typeError

/-- `ClientError._flatten_error_message(error_msg)`: a string is
returned as is; a list is comma-joined; for a dict the loop body
returns `"k: " + ", ".join(error_msg[k])` for the FIRST key only,
and an empty dict (or any other type) falls through returning
`None`. -/
def flatten_error_message : EVal → Except PyErr (Option String)
  | .s v => .ok (some v)
  | .l vs => do .ok (some (← pyJoin ", " (.l vs)))
  | .d [] => .ok none
  | .d ((k, v) :: _) => do .ok (some (k ++ ": " ++ (← pyJoin ", " v)))
  | .n _ => .ok none
  | .pynone => .ok none

/-- The `isinstance(error_list, dict)` arm of the `_parse_error_message`
loop: one `"key: k: " + _flatten_error_message(error_list[k])` line
per inner key; a `None` flatten result makes `msg += None` raise
`TypeError`. -/
def flattenEntries (key : String) : List (String × EVal) → Except PyErr (List String)
  | [] => .ok []
  | (k, v) :: rest => do
    let fl ← flatten_error_message v
    match fl with
    | none => .error .typeError
    | some m =>
      let more ← flattenEntries key rest
      .ok ((key ++ ": " ++ k ++ ": " ++ m) :: more)

/-- The loop of `_parse_error_message` over the entries of a
dict-shaped `errors` value: a string value contributes
`"key: value"`, a list value one `"key: element"` line per element
(`%s`-formatted, any type), a dict value its `flattenEntries`
lines, and a value of any other type contributes nothing. -/
def collectMessages : List (String × EVal) → Except PyErr (List String)
  | [] => .ok []
  | (key, el) :: rest => do
    let cur ← (match el with
      | .s v => Except.ok [key ++ ": " ++ v]
      | .l vs => Except.ok (vs.map (fun e => key ++ ": " ++ pyStr e))
      | .d inner => flattenEntries key inner
      | _ => Except.ok [])
    let more ← collectMessages rest
    .ok (cur ++ more)

/-- The `payload = self.error_payload['errors']` branch of
`_parse_error_message`: a missing `errors` key raised `KeyError`
before this point; a list is returned unchanged; iterating a
non-empty string or indexing it by character, or iterating a
number, raises `TypeError`; a dict runs the collection loop and
comma-joins the lines. -/
def parseErrorsValue : EVal → Except PyErr (Option EVal)
  | .l vs => .ok (some (.l vs))
  | .s v => if v = "" then .ok (some (.s "")) else .error .typeError
  | .d entries => do
    let msgs ← collectMessages entries
    .ok (some (.s (String.intercalate ", " msgs)))
  | .n _ => .error .typeError
  | .pynone => .error .typeError

/-- `ClientError._parse_error_message()`: a string payload is
returned; a dict payload returns its `error` entry, else its
`message` entry, else processes its `errors` entry — `KeyError`
when none of the three keys exists; any other payload type falls
through every `isinstance` and returns `None`. -/
def parse_error_message : EVal → Except PyErr (Option EVal)
  | .s v => .ok (some (.s v))
  | .d es =>
    match List.lookup "error" es with
    | some v => .ok (some v)
    | none =>
      match List.lookup "message" es with
      | some v => .ok (some v)
      | none =>
        match List.lookup "errors" es with
        | some p => parseErrorsValue p
        | none => .error .keyError
  | _ => .ok none

/-- `ClientError.error_message()` as computed during
`ClientError.__init__`: `"[%s] %s" % (code, parse result)`. -/
def error_message (code : Nat) (payload : EVal) : Except PyErr String := do
  let r ← parse_error_message payload
  .ok ("[" ++ toString code ++ "] " ++
    (match r with
     | none => "None"
     | some v => pyStr v))

/-! ### Request executor and retry driver (`appoptics_metrics/__init__.py`) -/

/-- Decoded response data (`_decode_body` outcome): the body parsed as
JSON when the content type is `application/json`, the decoded text
otherwise.  JSON parsing itself is an external collaborator; the
parsed document is represented by its source text. -/
inductive RespData where
  | json (body : String)
  | text (body : String)
deriving DecidableEq, Repr

/-- One HTTP response as the driver observes it: status code, body
bytes (already charset-decoded; `""` is an empty body) and the
`content-type` header (defaulted to `application/json` by
`_get_content_type` when absent). -/
structure Resp where
  status : Nat
  body : String
  contentType : String
deriving DecidableEq, Repr

/-- `_decode_body(resp)`: `if not body: return None`, else JSON-parse
when the media type is `application/json`, else the decoded text. -/
def decode_body (r : Resp) : Option RespData :=
  if r.body = "" then none
  else if r.contentType = "application/json" then some (.json r.body)
  else some (.text r.body)

/-- The exception class chosen by `exceptions.get(code, resp_data)`
via the `CODES` table (400/401/403/404 have dedicated subclasses,
anything else the generic `ClientError`). -/
inductive ErrKind where
  | badRequest
  | unauthorized
  | forbidden
  | notFound
  | clientError
deriving DecidableEq, Repr

/-- `exceptions.CODES` lookup inside `exceptions.get`. -/
def errKindOf (code : Nat) : ErrKind :=
  if code = 400 then .badRequest
  else if code = 401 then .unauthorized
  else if code = 403 then .forbidden
  else if code = 404 then .notFound
  else .clientError

/-- The classified 4xx error raised by `_process_response`
(`exceptions.get(resp.status, resp_data)`): it carries the numeric
status code and the decoded error payload. -/
structure CError where
  code : Nat
  payload : Option RespData
  kind : ErrKind
deriving DecidableEq, Repr

/-- Outcome of one `_mexe` run against a finite script of server
responses.  `pyerr` is an unclassified Python exception
(`KeyError` / `TypeError`) escaping the eager message construction
inside `ClientError.__init__`; `exhausted` is a model artifact: the
real loop would keep requesting past the end of the script. -/
inductive MResult where
  | ok (data : Option RespData)
  | err (e : CError)
  | pyerr (e : PyErr)
  | exhausted
deriving DecidableEq, Repr

/-- The value of `self.error_payload` as the flattening code sees it,
given `_decode_body`'s result: `None` for an empty body, the
decoded text for non-JSON content types, and the parsed document
for JSON bodies — `parse` being the external JSON decoder
(`json.loads`). -/
def error_payload (parse : String → EVal) : Option RespData → EVal
  | none => .pynone
  | some (.json s) => parse s
  | some (.text s) => .s s

/-- `raise exceptions.get(resp.status, resp_data)`: the classified
error object is constructed BEFORE being raised, and
`ClientError.__init__` eagerly computes `error_message()` — so a
payload on which the flattening code crashes makes the
`KeyError` / `TypeError` escape in place of the classified error. -/
def raise_client_error (parse : String → EVal) (code : Nat)
    (data : Option RespData) : Except PyErr CError :=
  match error_message code (error_payload parse data) with
  | .ok _ => .ok ⟨code, data, errKindOf code⟩
  | .error e => .error e

/-- The `_mexe` retry loop over a script of successive server
responses, threading the `backoff` state (initialised to 1 by
`_mexe`) and recording each `time.sleep` delay in order.
Per `_process_response`: `status < 500` decodes the body and either
raises `exceptions.get(status, data)` (when `status >= 400`) or
returns the data; `status >= 500` applies
`backoff = self.backoff_logic(backoff)` FIRST and then sleeps for
the new backoff before retrying. -/
def mexeRun (parse : String → EVal) (backoffLogic : Nat → Nat) :
    List Resp → Nat → MResult × List Nat
  | [], _ => (.exhausted, [])
  | r :: rest, backoff =>
    if r.status < 500 then
      let data := decode_body r
      if r.status ≥ 400 then
        match raise_client_error parse r.status data with
        | .ok e => (.err e, [])
        | .error pe => (.pyerr pe, [])
      else
        (.ok data, [])
    else
      let b := backoffLogic backoff
      let out := mexeRun parse backoffLogic rest b
      (out.1, b :: out.2)

/-- `_mexe` with the default backoff state: `backoff = 1`. -/
def mexe (parse : String → EVal) (backoffLogic : Nat → Nat)
    (script : List Resp) : MResult × List Nat :=
  mexeRun parse backoffLogic script 1

/-- The constructor default `self.backoff_logic = lambda backoff:
backoff * 2`. -/
def defaultBackoff (b : Nat) : Nat := b * 2

/-! ### Pagination walker (`_get_paginated_results`) -/

/-- One decoded list-endpoint response as the walker reads it:
the entity list `resp[entity]` (entities abstracted to `Nat` ids)
and the `query` envelope's optional `length` and `total` fields
(an absent `query` dict means both are absent). -/
structure PageResp where
  entities : List Nat
  queryLength : Option Nat
  queryTotal : Option Nat
deriving DecidableEq, Repr

/-- `_get_paginated_results` run against a script of successive page
responses, starting from the request's `offset` (default 0).
Per the source: yield the page's entities; read
`length = resp.get('query', {}).get('length', 0)`,
`offset = query_props.get('offset', 0) + length`,
`total = resp.get('query', {}).get('total', length)`;
recurse with the updated offset iff `offset < total and length > 0`.
Returns (all yielded entities, number of page requests made);
an exhausted script contributes no request (model artifact). -/
def get_paginated_results : List PageResp → Nat → List Nat × Nat
  | [], _ => ([], 0)
  | p :: rest, offset =>
    let length := p.queryLength.getD 0
    let newOffset := offset + length
    let total := p.queryTotal.getD length
    if newOffset < total ∧ 0 < length then
      let out := get_paginated_results rest newOffset
      (p.entities ++ out.1, out.2 + 1)
    else
      (p.entities, 1)

/-! ### Measurement payload construction (`create_tagged_payload`, `submit`) -/

/-- A Python tag dict (`str -> str`), as an insertion-ordered
association list (Python 3.7+ dict semantics). -/
abbrev TagMap := List (String × String)

/-- Python `dict(a, **b)`: a copy of `a` with `b`'s entries applied —
keys of `a` keep their position (values overridden by `b` where
present), keys only in `b` are appended in order. -/
def mergeDict (a b : TagMap) : TagMap :=
  a.map (fun p => (p.1, (List.lookup p.1 b).getD p.2)) ++
    b.filter (fun p => (List.lookup p.1 a).isNone)

/-- The keyword arguments reaching `create_tagged_payload`
(`**query_props`): the `tags` entry if present, the `inherit_tags`
entry if present, and the remaining entries (values opaque,
serialized as strings). -/
structure QProps where
  tags : Option TagMap
  inherit_tags : Option Bool
  extra : List (String × String)
deriving DecidableEq, Repr

/-- The measurement dict built by `create_tagged_payload`: the fixed
`name`/`value` fields, the optional `tags` key, the copied leftover
query props, and — when `tags` was absent but `inherit_tags` was
passed — the leaked `inherit_tags` entry (the source pops
`inherit_tags` only inside the `'tags' in query_props` branch, so
otherwise the trailing copy loop writes it into the measurement). -/
structure Measurement where
  name : String
  value : Rat
  tags : Option TagMap
  extra : List (String × String)
  inherit_tags_field : Option Bool
deriving DecidableEq, Repr

/-- `AppOpticsConnection.create_tagged_payload(name, value,
**query_props)` with the connection's sanitizer and top-level tag
dict passed in.
If `'tags' in query_props`: pop `inherit_tags` (default `False`);
when it is true, pop the caller's tags and set the measurement's
tags to `dict(self.get_tags(), **tags)`; when false the caller's
`tags` entry stays in `query_props` and the trailing copy loop
writes it to the measurement unchanged.
Elif `self.tags` is non-empty, the measurement's tags are the
top-level dict; otherwise no `tags` key is written. -/
def create_tagged_payload (sanitize : String → String) (connTags : TagMap)
    (name : String) (value : Rat) (qp : QProps) : Measurement :=
  match qp.tags with
  | some callerTags =>
    if qp.inherit_tags.getD false then
      ⟨sanitize name, value, some (mergeDict connTags callerTags), qp.extra, none⟩
    else
      ⟨sanitize name, value, some callerTags, qp.extra, none⟩
  | none =>
    ⟨sanitize name, value,
     if connTags.isEmpty then none else some connTags,
     qp.extra, qp.inherit_tags⟩

/-- `AppOpticsConnection.submit(name, value, **query_props)`:
pop `type`; if `'tags' in query_props or self.get_tags()`, delegate
to `submit_tagged` — which POSTs one payload whose `measurements`
list holds the single `create_tagged_payload` result — else raise
`Exception('At least one tag is needed.')` before any request. -/
def submit (sanitize : String → String) (connTags : TagMap)
    (name : String) (value : Rat) (qp : QProps) :
    Except String (List Measurement) :=
  let qp' : QProps :=
    { qp with extra := qp.extra.eraseP (fun p => p.1 == "type") }
  if qp'.tags.isSome || !connTags.isEmpty then
    .ok [create_tagged_payload sanitize connTags name value qp']
  else
    .error "At least one tag is needed."

/-- Number of network requests a `submit` call performs: the raise
happens before `_mexe` is ever reached, the delegated path POSTs
exactly once. -/
def submitRequests (r : Except String (List Measurement)) : Nat :=
  match r with
  | .error _ => 0
  | .ok _ => 1

/-! ## Theorems -/

/-- Claim C1, counterexample: on the response script `[500, 500, 200]`
with the default doubling backoff, the sleeps recorded by `_mexe`
are NOT `[1, 2]` — `_process_response` applies the growth function
before sleeping, so the driver sleeps `[2, 4]`. -/
theorem C1_counterexample :
    (mexe (fun _ => EVal.pynone) defaultBackoff
      [⟨500, "", ""⟩, ⟨500, "", ""⟩, ⟨200, "null", "application/json"⟩]).2
    ≠ [1, 2] := by
  decide

/-- Claim C1 (amended): for every execution of `_mexe` that receives
the response sequence `[500, 500, 200]`, exactly 2 sleeps occur
with delays 2 and 4 (the default doubling backoff starts at 1 and
is doubled before each sleep), and the call then returns the
decoded body of the 200 response — whatever the bodies, content
types and external JSON decoder. -/
theorem C1_retry_sequence (parse : String → EVal) (b1 c1 b2 c2 b ct : String) :
    mexe parse defaultBackoff [⟨500, b1, c1⟩, ⟨500, b2, c2⟩, ⟨200, b, ct⟩]
      = (.ok (decode_body ⟨200, b, ct⟩), [2, 4]) := by
  simp [mexe, mexeRun, defaultBackoff]

/-- Claim C6, counterexample: a 404 whose JSON body decodes to a dict
with none of the `error` / `message` / `errors` keys does NOT
raise a classified error — `ClientError.__init__` computes
`error_message()` eagerly and the `KeyError` from
`self.error_payload['errors']` escapes `exceptions.get` instead. -/
theorem C6_counterexample :
    (mexe (fun _ => EVal.d [("foo", EVal.s "bar")]) defaultBackoff
        [⟨404, "\x7b\"foo\": \"bar\"\x7d", "application/json"⟩]).1
      = MResult.pyerr PyErr.keyError
    ∧ MResult.pyerr PyErr.keyError
        ≠ MResult.err ⟨404,
            decode_body ⟨404, "\x7b\"foo\": \"bar\"\x7d", "application/json"⟩,
            errKindOf 404⟩ := by
  exact ⟨rfl, by simp⟩

/-- Claim C6 (amended): every response with status in `[400, 500)`
makes the retry driver stop at once — no sleep, the rest of the
script untouched; when the error message can be built from the
decoded payload it raises the classified error carrying the numeric
status code and the decoded error payload (404 mapping to the
not-found class), and when the flattening code crashes on the
payload that `KeyError` / `TypeError` escapes unclassified
instead. -/
theorem C6_client_error_fail_fast (parse : String → EVal) (bl : Nat → Nat)
    (r : Resp) (rest : List Resp) (h4 : 400 ≤ r.status)
    (h5 : r.status < 500) :
    (mexe parse bl (r :: rest) = ((mexe parse bl [r]).1, []))
    ∧ (∀ msg, error_message r.status (error_payload parse (decode_body r))
          = .ok msg →
        mexe parse bl (r :: rest)
          = (.err ⟨r.status, decode_body r, errKindOf r.status⟩, []))
    ∧ (∀ pe, error_message r.status (error_payload parse (decode_body r))
          = .error pe →
        mexe parse bl (r :: rest) = (.pyerr pe, []))
    ∧ errKindOf 404 = ErrKind.notFound := by
  refine ⟨?_, ?_, ?_, rfl⟩
  · cases hrc : raise_client_error parse r.status (decode_body r) <;>
      simp [mexe, mexeRun, h4, h5, hrc]
  · intro msg hmsg
    simp [mexe, mexeRun, h4, h5, raise_client_error, hmsg]
  · intro pe hpe
    simp [mexe, mexeRun, h4, h5, raise_client_error, hpe]

/-- Witness for C6 at a concrete 404 response whose body parses to
JSON `null` (message construction succeeds). -/
theorem C6_witness :
    (400 : Nat) ≤ 404 ∧ (404 : Nat) < 500
    ∧ error_message 404 (error_payload (fun _ => EVal.pynone)
        (decode_body ⟨404, "null", "application/json"⟩)) = .ok "[404] None"
    ∧ mexe (fun _ => EVal.pynone) defaultBackoff
        [⟨404, "null", "application/json"⟩]
      = (.err ⟨404, some (.json "null"), .notFound⟩, [])
    ∧ errKindOf 404 = ErrKind.notFound := by
  have h := C6_client_error_fail_fast (fun _ => EVal.pynone) defaultBackoff
    ⟨404, "null", "application/json"⟩ [] (by decide) (by decide)
  refine ⟨by decide, by decide, rfl, ?_, h.2.2.2⟩
  exact h.2.1 "[404] None" rfl

/-- Claim C7 (code bug): flattening is NOT total — a dict payload
carrying none of the `error` / `message` / `errors` keys makes
`_parse_error_message` index `self.error_payload['errors']` and
raise `KeyError`, so constructing `ClientError(400, {"foo": "bar"})`
crashes instead of falling back to a raw form of the payload. -/
theorem C7_flatten_crash :
    parse_error_message (.d [("foo", .s "bar")]) = .error .keyError
    ∧ error_message 400 (.d [("foo", .s "bar")]) = .error .keyError := by
  exact ⟨rfl, rfl⟩

/-- Claim C8: the payload
`{"errors": {"params": {"name": ["is not present"]}}}` flattens to
an error message containing the substring
`"params: name: is not present"`. -/
theorem C8_error_flattening :
    ∃ pre post : String,
      error_message 400
          (.d [("errors", .d [("params", .d [("name", .l [.s "is not present"])])])])
        = .ok (pre ++ "params: name: is not present" ++ post) := by
  exact ⟨"[400] ", "", rfl⟩

/-- The walker issues at least one page request for a non-empty
script. -/
lemma one_le_paginated_requests (q : PageResp) (rest : List PageResp)
    (off : Nat) : 1 ≤ (get_paginated_results (q :: rest) off).2 := by
  rw [get_paginated_results]
  split <;> simp

/-- Claim C3: the pagination walker stops iff
`offset + length >= total` or `length == 0` (fields defaulted as in
the source); a server reporting `total = 12` across pages of length
5, 5, 2 yields exactly 12 entities in 3 page requests; and a page
with `length == 0` ends the walk after its own request even when
`next_offset < total`. -/
theorem C3_pagination_walk :
    (get_paginated_results
        [⟨[0, 1, 2, 3, 4], some 5, some 12⟩,
         ⟨[5, 6, 7, 8, 9], some 5, some 12⟩,
         ⟨[10, 11], some 2, some 12⟩] 0
      = ([0, 1, 2, 3, 4, 5, 6, 7, 8, 9, 10, 11], 3))
    ∧ (∀ (es : List Nat) (total : Nat) (rest : List PageResp) (offset : Nat),
        get_paginated_results (⟨es, some 0, some total⟩ :: rest) offset
          = (es, 1))
    ∧ (∀ (p q : PageResp) (rest : List PageResp) (offset : Nat),
        1 < (get_paginated_results (p :: q :: rest) offset).2
          ↔ offset + p.queryLength.getD 0
                < p.queryTotal.getD (p.queryLength.getD 0)
            ∧ 0 < p.queryLength.getD 0) := by
  refine ⟨by decide, ?_, ?_⟩
  · intro es total rest offset
    rw [get_paginated_results]
    simp
  · intro p q rest offset
    rw [get_paginated_results]
    split
    · rename_i h
      have := one_le_paginated_requests q rest
        (offset + p.queryLength.getD 0)
      simp only
      omega
    · rename_i h
      simp only
      omega

/-- Claim C10: `submit` with no caller `tags` entry and an empty
top-level tag set raises `'At least one tag is needed.'` with zero
network requests; in every other case it delegates to
`submit_tagged`, POSTing the single `create_tagged_payload` result
(after popping `type`). -/
theorem C10_submit_requires_tag (sanitize : String → String)
    (connTags : TagMap) (name : String) (value : Rat) (qp : QProps) :
    (qp.tags = none → connTags = [] →
      submit sanitize connTags name value qp
          = .error "At least one tag is needed."
      ∧ submitRequests (submit sanitize connTags name value qp) = 0)
    ∧ ((qp.tags ≠ none ∨ connTags ≠ []) →
      submit sanitize connTags name value qp
        = .ok [create_tagged_payload sanitize connTags name value
            { qp with extra := qp.extra.eraseP (fun p => p.1 == "type") }]) := by
  constructor
  · intro ht hc
    subst hc
    simp [submit, submitRequests, ht]
  · intro h
    rcases h with h | h
    · simp [submit, Option.isSome_iff_ne_none.2 h]
    · have : connTags.isEmpty = false := by
        cases connTags with
        | nil => exact absurd rfl h
        | cons x xs => rfl
      simp [submit, this]

/-- Witness for C10: the raise at empty tags, and the delegation when
a top-level tag exists. -/
theorem C10_witness :
    (submit id [] "m" 1 ⟨none, none, []⟩
        = .error "At least one tag is needed."
     ∧ submitRequests (submit id [] "m" 1 ⟨none, none, []⟩) = 0)
    ∧ submit id [("a", "1")] "m" 1 ⟨none, none, []⟩
        = .ok [create_tagged_payload id [("a", "1")] "m" 1 ⟨none, none, []⟩] := by
  refine ⟨(C10_submit_requires_tag id [] "m" 1 ⟨none, none, []⟩).1 rfl rfl, ?_⟩
  have h := (C10_submit_requires_tag id [("a", "1")] "m" 1
      ⟨none, none, []⟩).2 (Or.inr (by decide))
  exact h

/-- Association-list lookup distributes over append. -/
lemma lookup_append (k : String) (l₁ l₂ : TagMap) :
    List.lookup k (l₁ ++ l₂)
      = match List.lookup k l₁ with
        | some v => some v
        | none => List.lookup k l₂ := by
  induction l₁ with
  | nil => simp
  | cons p l ih =>
    rcases p with ⟨k₀, v₀⟩
    cases h : k == k₀ <;> simp [List.lookup, h, ih]

/-- Lookup after rewriting every value in place (keys unchanged). -/
lemma lookup_map_value (b : TagMap) (k : String) (a : TagMap) :
    List.lookup k (a.map fun p => (p.1, (List.lookup p.1 b).getD p.2))
      = (List.lookup k a).map fun v => (List.lookup k b).getD v := by
  induction a with
  | nil => simp
  | cons p l ih =>
    rcases p with ⟨k₀, v₀⟩
    cases h : k == k₀
    · simp [List.lookup, h, ih]
    · have hk : k = k₀ := eq_of_beq h
      subst hk
      simp [List.lookup, h]

/-- Filtering out entries whose key is bound in `a` does not change
lookups of keys unbound in `a`. -/
lemma lookup_filter_unbound (a b : TagMap) (k : String)
    (hk : List.lookup k a = none) :
    List.lookup k (b.filter fun p => (List.lookup p.1 a).isNone)
      = List.lookup k b := by
  induction b with
  | nil => simp
  | cons p l ih =>
    rcases p with ⟨k₁, v₁⟩
    cases h : k == k₁
    · cases hq : (List.lookup k₁ a).isNone <;>
        simp [List.filter_cons, hq, List.lookup, h, ih]
    · have hk1 : k = k₁ := eq_of_beq h
      subst hk1
      simp [List.filter_cons, hk, List.lookup, h]

/-- `dict(a, **b)` semantics of `mergeDict`: `b` (the caller's dict)
wins on key collision, `a` fills in the rest. -/
lemma lookup_mergeDict (a b : TagMap) (k : String) :
    List.lookup k (mergeDict a b)
      = match List.lookup k b with
        | some v => some v
        | none => List.lookup k a := by
  rw [mergeDict, lookup_append, lookup_map_value]
  cases ha : List.lookup k a
  · rw [lookup_filter_unbound a b k ha]
    cases hb : List.lookup k b <;> simp
  · cases hb : List.lookup k b <;> simp [hb]

/-- Claim C4, counterexample: with an EMPTY top-level tag set and no
caller tags, `create_tagged_payload` emits no `tags` key at all
(the `elif self.tags:` guard is false), rather than using the
top-level tag set as-is. -/
theorem C4_counterexample :
    (create_tagged_payload id [] "m" 1 ⟨none, none, []⟩).tags = none
    ∧ (create_tagged_payload id [] "m" 1 ⟨none, none, []⟩).tags
        ≠ some ([] : TagMap) := by
  decide

/-- Claim C4 (amended): caller tags with inheritance enabled yield the
top-level tags merged underneath the caller's (caller wins on
collision — both on the spec's concrete example and as a lookup
law); with inheritance disabled (absent or false) the payload's
tags are exactly the caller's; with no caller tags the top-level
set is used as-is when non-empty, and no tags field is emitted when
it is empty. -/
theorem C4_tag_resolution :
    ((create_tagged_payload id [("a", "1"), ("b", "2")] "m" 1
        ⟨some [("b", "3")], some true, []⟩).tags
      = some [("a", "1"), ("b", "3")])
    ∧ ((create_tagged_payload id [("a", "1"), ("b", "2")] "m" 1
        ⟨some [("b", "3")], some false, []⟩).tags
      = some [("b", "3")])
    ∧ (∀ (sanitize : String → String) (connTags callerTags : TagMap)
         (name : String) (value : Rat) (extra : List (String × String)),
        (create_tagged_payload sanitize connTags name value
            ⟨some callerTags, some true, extra⟩).tags
          = some (mergeDict connTags callerTags))
    ∧ (∀ (connTags callerTags : TagMap) (k : String),
        List.lookup k (mergeDict connTags callerTags)
          = match List.lookup k callerTags with
            | some v => some v
            | none => List.lookup k connTags)
    ∧ (∀ (sanitize : String → String) (connTags callerTags : TagMap)
         (name : String) (value : Rat) (extra : List (String × String)),
        (create_tagged_payload sanitize connTags name value
            ⟨some callerTags, some false, extra⟩).tags = some callerTags
        ∧ (create_tagged_payload sanitize connTags name value
            ⟨some callerTags, none, extra⟩).tags = some callerTags)
    ∧ (∀ (sanitize : String → String) (connTags : TagMap) (name : String)
         (value : Rat) (extra : List (String × String)) (inh : Option Bool),
        (create_tagged_payload sanitize connTags name value
            ⟨none, inh, extra⟩).tags
          = if connTags.isEmpty then none else some connTags) := by
  refine ⟨by decide, by decide, ?_, lookup_mergeDict, ?_, ?_⟩
  · intro sanitize connTags callerTags name value extra
    rfl
  · intro sanitize connTags callerTags name value extra
    exact ⟨rfl, rfl⟩
  · intro sanitize connTags name value extra inh
    rfl

/-- The conditional minimum update of `Aggregator.add` computes the
binary minimum. -/
lemma if_lt_eq_min (v mn : Rat) : (if v < mn then v else mn) = min mn v := by
  rcases le_or_lt mn v with h | h
  · rw [if_neg (not_lt.2 h), min_eq_left h]
  · rw [if_pos h, min_eq_right h.le]

/-- The conditional maximum update of `Aggregator.add` computes the
binary maximum. -/
lemma if_gt_eq_max (v mx : Rat) : (if v > mx then v else mx) = max mx v := by
  rcases le_or_lt v mx with h | h
  · rw [if_neg (not_lt.2 h), max_eq_left h]
  · rw [if_pos h, max_eq_right h.le]

/-- A run of `add` calls for one name only rewrites that name's
bucket entry, by iterated `addValue`. -/
lemma foldl_add_measurements (name : String) (vs : List Rat) (st : AggState) :
    ((vs.foldl (fun s x => s.add name x) st).measurements name)
      = vs.foldl (fun o x => some (addValue o x)) (st.measurements name) := by
  induction vs generalizing st with
  | nil => rfl
  | cons v vs ih =>
    simp only [List.foldl_cons]
    rw [ih]
    simp [AggState.add]

/-- Same statement for `add_tagged` and the tagged bucket. -/
lemma foldl_add_tagged_measurements (name : String) (vs : List Rat)
    (st : AggState) :
    ((vs.foldl (fun s x => s.add_tagged name x) st).tagged_measurements name)
      = vs.foldl (fun o x => some (addValue o x)) (st.tagged_measurements name) := by
  induction vs generalizing st with
  | nil => rfl
  | cons v vs ih =>
    simp only [List.foldl_cons]
    rw [ih]
    simp [AggState.add_tagged]

/-- Iterated `addValue` over an existing summary accumulates count,
sum, min and max componentwise. -/
lemma foldl_addValue_some (vs : List Rat) (c : Nat) (sm mn mx : Rat) :
    vs.foldl (fun o x => some (addValue o x)) (some ⟨c, sm, mn, mx⟩)
      = some ⟨c + vs.length, vs.foldl (· + ·) sm,
              vs.foldl min mn, vs.foldl max mx⟩ := by
  induction vs generalizing c sm mn mx with
  | nil => simp
  | cons v vs ih =>
    simp only [List.foldl_cons]
    have e : addValue (some ⟨c, sm, mn, mx⟩) v
        = ⟨c + 1, sm + v, min mn v, max mx v⟩ := by
      simp [addValue, if_lt_eq_min, if_gt_eq_max]
    rw [e, ih]
    have e2 : c + 1 + vs.length = c + (vs.length + 1) := by omega
    rw [e2]
    rfl

/-- Claim C2: after `add(name, v1), ..., add(name, vn)` on a fresh
aggregator the summary for `name` is
`{count: n, sum: Σvi, min: min(vi), max: max(vi)}`, and likewise
for `add_tagged` on the tagged bucket. -/
theorem C2_aggregator_summary (name : String) (v : Rat) (vs : List Rat) :
    (((v :: vs).foldl (fun st x => st.add name x) AggState.fresh).measurements name
      = some ⟨vs.length + 1, vs.foldl (· + ·) v, vs.foldl min v, vs.foldl max v⟩)
    ∧ (((v :: vs).foldl (fun st x => st.add_tagged name x)
          AggState.fresh).tagged_measurements name
      = some ⟨vs.length + 1, vs.foldl (· + ·) v, vs.foldl min v, vs.foldl max v⟩) := by
  constructor
  · rw [foldl_add_measurements]
    simp only [List.foldl_cons]
    have e : addValue (AggState.fresh.measurements name) v
        = ⟨1, v, v, v⟩ := rfl
    rw [e, foldl_addValue_some, Nat.add_comm 1 vs.length]
  · rw [foldl_add_tagged_measurements]
    simp only [List.foldl_cons]
    have e : addValue (AggState.fresh.tagged_measurements name) v
        = ⟨1, v, v, v⟩ := rfl
    rw [e, foldl_addValue_some, Nat.add_comm 1 vs.length]

/-- The aggregator states reachable from a freshly constructed
`Aggregator` by `add` / `add_tagged` calls. -/
inductive Reachable : AggState → Prop where
  | init (period mt : Option Nat) :
      Reachable ⟨Bucket.empty, Bucket.empty, period, mt⟩
  | add (st : AggState) (name : String) (v : Rat) :
      Reachable st → Reachable (st.add name v)
  | add_tagged (st : AggState) (name : String) (v : Rat) :
      Reachable st → Reachable (st.add_tagged name v)

/-- The linear form of the per-entry invariant: a positive count and
`min * count <= sum <= max * count`. -/
def SummaryInv (s : Summary) : Prop :=
  1 ≤ s.count ∧ s.min * (s.count : Rat) ≤ s.sum
    ∧ s.sum ≤ s.max * (s.count : Rat)

/-- `addValue` preserves the per-entry invariant. -/
lemma addValue_inv (o : Option Summary) (v : Rat)
    (h : ∀ s, o = some s → SummaryInv s) : SummaryInv (addValue o v) := by
  cases o with
  | none =>
    refine ⟨le_refl 1, ?_, ?_⟩
    · show v * ((1 : Nat) : Rat) ≤ v
      simp
    · show v ≤ v * ((1 : Nat) : Rat)
      simp
  | some m =>
    obtain ⟨h1, h2, h3⟩ := h m rfl
    have hc0 : (0 : Rat) ≤ (m.count : Rat) := by positivity
    refine ⟨by show 1 ≤ m.count + 1; omega, ?_, ?_⟩
    · show (if v < m.min then v else m.min) * ((m.count + 1 : Nat) : Rat)
        ≤ m.sum + v
      rw [if_lt_eq_min]
      push_cast
      have e1 : min m.min v * (m.count : Rat) ≤ m.min * (m.count : Rat) :=
        mul_le_mul_of_nonneg_right (min_le_left _ _) hc0
      have e2 : min m.min v ≤ v := min_le_right _ _
      nlinarith
    · show m.sum + v
        ≤ (if v > m.max then v else m.max) * ((m.count + 1 : Nat) : Rat)
      rw [if_gt_eq_max]
      push_cast
      have e1 : m.max * (m.count : Rat) ≤ max m.max v * (m.count : Rat) :=
        mul_le_mul_of_nonneg_right (le_max_left _ _) hc0
      have e2 : v ≤ max m.max v := le_max_right _ _
      nlinarith

/-- Every entry of either bucket of a reachable aggregator state
satisfies the linear invariant. -/
lemma reachable_inv (st : AggState) (h : Reachable st) :
    ∀ name s,
      (st.measurements name = some s → SummaryInv s)
      ∧ (st.tagged_measurements name = some s → SummaryInv s) := by
  induction h with
  | init p mt =>
    intro name s
    exact ⟨fun h => by simp [Bucket.empty] at h,
           fun h => by simp [Bucket.empty] at h⟩
  | add st name v _ ih =>
    intro n s
    constructor
    · intro hl
      by_cases hn : n = name
      · subst hn
        simp [AggState.add] at hl
        rw [← hl]
        exact addValue_inv (st.measurements n) v (fun q hq => (ih n q).1 hq)
      · simp only [AggState.add, if_neg hn] at hl
        exact (ih n s).1 hl
    · intro hl
      exact (ih n s).2 hl
  | add_tagged st name v _ ih =>
    intro n s
    constructor
    · intro hl
      exact (ih n s).1 hl
    · intro hl
      by_cases hn : n = name
      · subst hn
        simp [AggState.add_tagged] at hl
        rw [← hl]
        exact addValue_inv (st.tagged_measurements n) v
          (fun q hq => (ih n q).2 hq)
      · simp only [AggState.add_tagged, if_neg hn] at hl
        exact (ih n s).2 hl

/-- Claim C9: in every aggregator state reachable through `add` /
`add_tagged`, every summary entry of either bucket satisfies
`min <= sum / count <= max`. -/
theorem C9_invariant (st : AggState) (h : Reachable st) (name : String)
    (s : Summary)
    (hs : st.measurements name = some s ∨ st.tagged_measurements name = some s) :
    s.min ≤ s.sum / (s.count : Rat) ∧ s.sum / (s.count : Rat) ≤ s.max := by
  have hinv : SummaryInv s := by
    rcases hs with h1 | h1
    · exact (reachable_inv st h name s).1 h1
    · exact (reachable_inv st h name s).2 h1
  obtain ⟨h1, h2, h3⟩ := hinv
  have hc : (0 : Rat) < (s.count : Rat) := by
    have : 0 < s.count := h1
    exact_mod_cast this
  exact ⟨(le_div_iff₀ hc).2 h2, (div_le_iff₀ hc).2 h3⟩

/-- Witness for C9: the state after `add("m", 2); add("m", 4)` is
reachable, its entry is `{count: 2, sum: 6, min: 2, max: 4}`, and
`2 <= 6/2 <= 4`. -/
theorem C9_witness :
    Reachable ((AggState.fresh.add "m" 2).add "m" 4)
    ∧ ((AggState.fresh.add "m" 2).add "m" 4).measurements "m"
        = some ⟨2, 6, 2, 4⟩
    ∧ ((2 : Rat) ≤ (6 : Rat) / ((2 : Nat) : Rat)
        ∧ (6 : Rat) / ((2 : Nat) : Rat) ≤ (4 : Rat)) := by
  have hr : Reachable ((AggState.fresh.add "m" 2).add "m" 4) :=
    Reachable.add _ _ _ (Reachable.add _ _ _ (Reachable.init none none))
  have hl : ((AggState.fresh.add "m" 2).add "m" 4).measurements "m"
      = some ⟨2, 6, 2, 4⟩ := by
    norm_num [AggState.fresh, AggState.add, Bucket.empty, addValue]
  exact ⟨hr, hl, C9_invariant _ hr "m" ⟨2, 6, 2, 4⟩ (Or.inl hl)⟩

/-- Arithmetic of `mt - (mt % self.period)`: the result is a multiple
of the period and starts the bucket containing `t`. -/
lemma floor_arith (t p : Nat) (hp : 0 < p) :
    (t - t % p) % p = 0 ∧ t - t % p ≤ t ∧ t < t - t % p + p := by
  have h1 := Nat.div_add_mod t p
  have h2 := Nat.mod_lt t hp
  have e : t - t % p = p * (t / p) := by omega
  exact ⟨by rw [e]; exact Nat.mul_mod_right p (t / p), by omega, by omega⟩

/-- Claim C5, counterexample: a caller-supplied `time` of 0 is falsy,
so with `period = 60` and wall clock 100 the code floors the WALL
CLOCK (`some 60`), not the caller-supplied time
(`0 - 0 % 60 = 0`). -/
theorem C5_counterexample :
    floor_measure_time 100 ⟨Bucket.empty, Bucket.empty, some 60, some 0⟩
        = some 60
    ∧ (0 : Nat) - 0 % 60 = 0
    ∧ floor_measure_time 100 ⟨Bucket.empty, Bucket.empty, some 60, some 0⟩
        ≠ some ((0 : Nat) - 0 % 60) := by
  decide

/-- Claim C5 (amended): for a positive period `p`,
`floor_measure_time` returns `t - t % p` where `t` is the
caller-supplied time if set AND NONZERO (a zero time is falsy and
is replaced by the wall clock) and the wall clock otherwise, and
this floor is a multiple of `p` with `floor(t) <= t < floor(t)+p`;
with no period a nonzero caller-supplied time passes through
unchanged; with neither period nor time, no `time` field is
emitted in the payload. -/
theorem C5_floor_time (p t now : Nat) (m tm : Bucket) (hp : 0 < p) :
    (t ≠ 0 →
      floor_measure_time now ⟨m, tm, some p, some t⟩ = some (t - t % p)
      ∧ (t - t % p) % p = 0 ∧ t - t % p ≤ t ∧ t < t - t % p + p)
    ∧ (floor_measure_time now ⟨m, tm, some p, none⟩ = some (now - now % p)
      ∧ (now - now % p) % p = 0 ∧ now - now % p ≤ now
      ∧ now < now - now % p + p)
    ∧ (t ≠ 0 → floor_measure_time now ⟨m, tm, none, some t⟩ = some t)
    ∧ payload_time now ⟨m, tm, none, none⟩ = none := by
  refine ⟨fun ht => ⟨?_, floor_arith t p hp⟩,
          ⟨?_, floor_arith now p hp⟩, fun ht => ?_, rfl⟩
  · simp [floor_measure_time, truthy, hp.ne', ht]
  · simp [floor_measure_time, truthy, hp.ne']
  · simp [floor_measure_time, truthy, ht]

/-- Witness for C5 at `p = 60`, `t = 90`, `now = 100`. -/
theorem C5_witness :
    (0 : Nat) < 60 ∧ (90 : Nat) ≠ 0
    ∧ floor_measure_time 100 ⟨Bucket.empty, Bucket.empty, some 60, some 90⟩
        = some 60
    ∧ payload_time 100 ⟨Bucket.empty, Bucket.empty, none, none⟩ = none := by
  have h := C5_floor_time 60 90 100 Bucket.empty Bucket.empty (by decide)
  exact ⟨by decide, by decide, by simpa using (h.1 (by decide)).1, h.2.2.2⟩

end AppOptics
